import Mathlib

/-!
Shallow embedding of the opflex VPP renderer's endpoint-group rendering and
uplink management code (`VppEndPointGroupManager.cpp`, `VppUplink.cpp`,
`VPPRenderer.cpp`), together with the mark-and-sweep reconciliation model it
relies on.  Addresses, MACs and URIs are modelled as opaque strings; VOM
desired-state objects are modelled by the `Obj` inductive whose constructors
carry the arguments the source passes to the corresponding VOM constructors.
-/

namespace Vpp

/-- Opaque policy URI (opflex::modb::URI), identified with its string form. -/
abbrev URI := String

/-- IP address, kept as the opaque string the source parses it from. -/
abbrev IpAddr := String

/-- MAC address, opaque string. -/
abbrev Mac := String

/-- An IP prefix: address plus mask length (route::prefix_t).  Address strings
are opaque tokens here, so `low`/`high` mask bounds are not computed. -/
structure Pfx where
  addr : IpAddr
  len : Nat
deriving DecidableEq, Repr

/-- VOM interface types relevant to this code (interface::type_t). -/
inductive IntfType where
  | ethernet
  | afpacket
  | bond
  | tap
  | bvi
  | vxlan
  | sub
deriving DecidableEq, Repr

/-- A VOM interface as constructed by this code: a name, a type, an optional
containing route-domain and an optionally set MAC address.  All interfaces
built by this code are constructed with admin-state UP, so the admin state is
not carried. -/
structure Intf where
  name : String
  typ : IntfType
  rdId : Option Nat := none
  mac : Option Mac := none
deriving DecidableEq, Repr

/-- The interface's L2 address (interface::l2_address()): the explicitly set
MAC when one was set, otherwise the hardware default, abstracted as a fixed
string. -/
def Intf.l2_address (i : Intf) : Mac := i.mac.getD "00:00:00:00:00:00"

/-- l2_binding::l2_vtr_op_t values used by this code. -/
inductive VtrOp where
  | pop1
deriving DecidableEq, Repr

/-- direction_t. -/
inductive Direction where
  | input
  | output
deriving DecidableEq, Repr

/-- l3_proto_t. -/
inductive L3Proto where
  | ipv4
  | ipv6
deriving DecidableEq, Repr

/-- nat_binding::zone_t. -/
inductive NatZone where
  | inside
  | outside
deriving DecidableEq, Repr

/-- gbp_subnet::type_t. -/
inductive GbpSubnetType where
  | stitchedInternal
  | stitchedExternal
  | transport
deriving DecidableEq, Repr

/-- The domain a gbp_vxlan tunnel is attached to: a gbp_bridge_domain or a
gbp_route_domain, identified by the underlying domain id. -/
inductive GbpVxlanDom where
  | bd (id : Nat)
  | rd (id : Nat)
deriving DecidableEq, Repr

/-- A desired-state (VOM) object as written via OM::write / OM::commit.  Each
constructor mirrors one VOM class used by the embedded code and carries the
arguments the source passes to its constructor. -/
inductive Obj where
  | bridgeDomain (id : Nat) (learningOn : Bool)
  | routeDomain (id : Nat)
  | intf (i : Intf)
  | subIntf (parent : String) (tag : Nat)
  | l2Binding (itf : String) (bd : Nat) (vtr : Option (VtrOp × Nat))
  | bdEntry (bd : Nat) (mac : Mac) (itf : String)
  | vxlanTunnel (src dst : IpAddr) (vni : Nat) (gbpMode : Bool) (mcastItf : Option String)
  | ipMroute (grp : IpAddr) (acceptItf : String)
  | igmpBinding (itf : String)
  | igmpListen (itf : String) (grp : IpAddr)
  | gbpRouteDomain (rd : Nat) (v4 v6 : Option String)
  | gbpBridgeDomain (bd : Nat) (bvi : String) (uuFwd : Option String) (bcast : Option String)
  | gbpVxlan (vni : Nat) (dom : GbpVxlanDom)
  | gbpEndpointGroup (vnid : Nat) (encap : Option String) (rd : Nat) (bd : Nat)
  | natBinding (itf : String) (dir : Direction) (proto : L3Proto) (zone : NatZone)
  | l3Binding (itf : String) (pfx : Pfx)
  | bdArpEntry (bd : Nat) (addr : IpAddr) (mac : Mac)
  | gbpSubnet (rd : Nat) (pfx : Pfx) (typ : GbpSubnetType)
  | tapIntf (name : String) (pfx : Pfx)
  | ipUnnumbered (itf : String) (src : String)
  | arpProxyCfg (pfx : Pfx)
  | arpProxyBinding (itf : String)
  | dhcpClient (itf : String) (hostname : String) (clientId : Mac)
  | lldpGlobal (name : String) (txHold txInterval : Nat)
  | lldpBinding (itf : String) (desc : String)
  | bondIntf (name : String)
  | bondGroupBinding (bond : String) (members : List String)
deriving DecidableEq, Repr

/-- A subnet attached to an endpoint group, as read back from the policy
model: its address and mask length are each individually optional, and
PolicyManager::getRouterIpForSubnet may yield a virtual-router address. -/
structure Subnet where
  address : Option IpAddr
  prefixLen : Option Nat
  routerIp : Option IpAddr
deriving DecidableEq, Repr

/-- The policy-manager queries the endpoint-group renderer makes, modelled as
a read-only environment. -/
structure PolicyManager where
  groupExists : URI → Bool
  getVnidForGroup : URI → Option Nat
  getRDForGroup : URI → Option URI
  getBDForGroup : URI → Option URI
  getBDVnidForGroup : URI → Option Nat
  getRDVnidForGroup : URI → Option Nat
  getBDMulticastIPForGroup : URI → Option String
  getSubnetsForGroup : URI → List Subnet

/-- Policy model class identities used with the ID allocator. -/
inductive ClassId where
  | routingDomain
  | bridgeDomain
deriving DecidableEq, Repr

/-- DHCP client lease state (dhcp_client::state_t). -/
inductive DhcpState where
  | discover
  | request
  | bound
deriving DecidableEq, Repr

/-- A DHCP lease (dhcp_client::lease_t): its state and the leased host
prefix; the lease address is the prefix's address. -/
structure Lease where
  state : DhcpState
  hostPfx : Pfx
deriving DecidableEq, Repr

/-- Uplink encapsulation mode (Uplink::uplink_type_t). -/
inductive UplinkType where
  | vlan
  | vxlan
deriving DecidableEq, Repr

/-- VXLAN tunnel endpoint parameters held by the uplink (m_vxlan): the source
is learned from DHCP, the destination is configured. -/
structure VxlanParams where
  src : IpAddr := ""
  dst : IpAddr := ""
deriving DecidableEq, Repr

/-- Modelled from the spec: the spine proxy available in transport mode.  The
class SpineProxy (`VppSpineProxy.hpp/.cpp`) is not under src/; per the spec it
provides the proxy destinations used for v4, v6 and MAC proxying; `mk_v4`,
`mk_v6` and `mk_mac` are modelled as returning the per-address-family proxy
interface names. -/
structure SpineProxy where
  v4 : String
  v6 : String
  macItf : String
deriving DecidableEq, Repr

/-- Modelled from the spec: SpineProxy::mk_v4 — the v4 proxy interface. -/
def SpineProxy.mk_v4 (sp : SpineProxy) (_key : String) : String := sp.v4

/-- Modelled from the spec: SpineProxy::mk_v6 — the v6 proxy interface. -/
def SpineProxy.mk_v6 (sp : SpineProxy) (_key : String) : String := sp.v6

/-- Modelled from the spec: SpineProxy::mk_mac — the MAC proxy interface. -/
def SpineProxy.mk_mac (sp : SpineProxy) (_key : String) : String := sp.macItf

/-- The Uplink manager's state (class Uplink, `VppUplink.cpp`).  The
`spine_proxies` query is not in the src/ copy of VppUplink.cpp (only its
caller is); modelled from the spec as: in transport mode a spine proxy is
available for a vnid, otherwise none. -/
structure Uplink where
  m_type : UplinkType := .vlan
  m_vxlan : VxlanParams := {}
  m_iface : String := ""
  m_vlan : Nat := 0
  m_uplink : Intf := { name := "", typ := .afpacket }
  slave_ifaces : List String := []
  dhcp_options : List String := []
  spine_proxies : Nat → Option SpineProxy := fun _ => none

/-- Modelled from the spec: Uplink::local_address — the recorded local tunnel
source address, learned via DHCP ("records the leased address as the tunnel
source"). -/
def Uplink.local_address (u : Uplink) : IpAddr := u.m_vxlan.src

/-- Modelled from the spec: Uplink::local_interface — the uplink interface
the manager owns. -/
def Uplink.local_interface (u : Uplink) : Intf := u.m_uplink

/-- The virtual-router configuration, when enabled: carries the VR MAC. -/
structure VirtualRouter where
  mac : Mac
deriving DecidableEq, Repr

/-- The runtime handed to the EndPointGroupManager: policy manager, ID
allocator (id_gen, modelled as the allocation function it realises), the
uplink manager and the optional virtual router. -/
structure Runtime where
  pm : PolicyManager
  id_gen : ClassId → URI → Nat
  uplink : Uplink
  vr : Option VirtualRouter

/-- Result of running a piece of the render code: a normal return carrying
the value and the ordered list of OM writes performed, or the undefined
behaviour reached when the code dereferences a null shared_ptr (carrying the
writes performed before that point). -/
inductive ExecResult (α : Type) where
  | ok (a : α) (writes : List Obj)
  | nullDeref (writes : List Obj)
deriving DecidableEq, Repr

/-- EndPointGroupManager::ForwardInfo.  In the source `bdURI`/`rdURI` are
boost::optional and `vnid`/`rdId`/`bdId` plain uint32_t; the struct
declaration is in a header not under src/, so unassigned ids are modelled as
defaulting to 0. -/
structure ForwardInfo where
  vnid : Nat := 0
  rdURI : Option URI := none
  rdId : Nat := 0
  bdURI : Option URI := none
  bdId : Nat := 0
deriving DecidableEq, Repr

/-- EndPointGroupManager::get_fwd_info: throws NoFowardInfoException (here:
`Except.error ()`) when the group's vnid cannot be resolved or the group has
no bridge domain; otherwise fills in the vnid, the BD URI and allocated id,
and, when a routing domain is present, the RD URI and allocated id. -/
def get_fwd_info (r : Runtime) (uri : URI) : Except Unit ForwardInfo :=
  match r.pm.getVnidForGroup uri with
  | none => .error ()
  | some vnid =>
    let epgRd := r.pm.getRDForGroup uri
    match r.pm.getBDForGroup uri with
    | none => .error ()
    | some bdURI =>
      let fwd0 : ForwardInfo := { vnid := vnid }
      let fwd1 :=
        match epgRd with
        | some rdURI =>
          { fwd0 with rdURI := some rdURI,
                      rdId := r.id_gen ClassId.routingDomain rdURI }
        | none => fwd0
      .ok { fwd1 with bdURI := some bdURI,
                      bdId := r.id_gen ClassId.bridgeDomain bdURI }

/-- The name VOM derives for a vxlan_tunnel interface, abstracted as a
deterministic function of its endpoints and vni. -/
def vxlanItfName (src dst : IpAddr) (vni : Nat) : String :=
  "vxlan-" ++ src ++ "-" ++ dst ++ ":" ++ toString vni

/-- EndPointGroupManager::mk_bvi: builds the per-group BVI interface in the
route domain, sets its MAC from the argument or else from the virtual router,
writes it, binds it into the bridge domain and adds an L2FIB entry for its
own address (the BD is not learning). -/
def mk_bvi (r : Runtime) (_key : String) (bdId rdId : Nat) (mac : Option Mac) :
    Intf × List Obj :=
  let bvi : Intf :=
    { name := "bvi-" ++ toString bdId
      typ := .bvi
      rdId := some rdId
      mac :=
        match mac with
        | some m => some m
        | none => r.vr.map VirtualRouter.mac }
  (bvi,
   [Obj.intf bvi,
    Obj.l2Binding bvi.name bdId none,
    Obj.bdEntry bdId bvi.l2_address bvi.name])

/-- EndPointGroupManager::mk_mcast_tunnel: the GBP-mode VXLAN multicast
tunnel for broadcast/multicast traffic, the multicast route accepting via the
uplink and forwarding locally, and the IGMP join on the uplink interface. -/
def mk_mcast_tunnel (r : Runtime) (_key : String) (vni : Nat) (maddr : String) :
    Intf × List Obj :=
  let upl := r.uplink.local_interface
  let vt : Intf := { name := vxlanItfName r.uplink.local_address maddr vni, typ := .vxlan }
  (vt,
   [Obj.vxlanTunnel r.uplink.local_address maddr vni true (some upl.name),
    Obj.ipMroute maddr upl.name,
    Obj.igmpBinding upl.name,
    Obj.igmpListen upl.name maddr])

/-- Uplink::mk_interface (`VppUplink.cpp`): the per-tenant encapsulation
link, switched on the current encapsulation mode only — a VXLAN tunnel from
the recorded source to the configured destination keyed by vnid, or a VLAN
sub-interface of the uplink tagged with vnid. -/
def Uplink.mk_interface (u : Uplink) (_uuid : String) (vnid : Nat) :
    Intf × List Obj :=
  match u.m_type with
  | .vxlan =>
    let vt : Intf := { name := vxlanItfName u.m_vxlan.src u.m_vxlan.dst vnid, typ := .vxlan }
    (vt, [Obj.vxlanTunnel u.m_vxlan.src u.m_vxlan.dst vnid false none])
  | .vlan =>
    let sb : Intf := { name := u.m_uplink.name ++ "." ++ toString vnid, typ := .sub }
    (sb, [Obj.subIntf u.m_uplink.name vnid])

/-- The gbp_endpoint_group object the render builds: its vnid, the encap
interface (stitched mode only), and the BVI / bridge-domain / route-domain it
hangs on to (reachable in the source through get_bridge_domain() and
get_route_domain()). -/
structure Group where
  vnid : Nat
  encap : Option String
  bvi : Intf
  bdId : Nat
  rdId : Nat
deriving DecidableEq, Repr

/-- EndPointGroupManager::mk_group.  On NoFowardInfoException the exception
is caught, logged and a null pointer returned with nothing written.  When
forwarding info resolves, writes the bridge/route domains and the BVI, then
branches: transport mode (a spine proxy exists for the vnid) builds the GBP
route domain over the proxy tunnels and — only when both the BD vnid and the
BD multicast address are known — the multicast tunnel, GBP bridge domain, GBP
vxlan and the group object; otherwise `gepg` stays null and the trailing
`OM::write(key, *gepg)` dereferences a null shared_ptr.  Stitched mode builds
the encap link via the uplink, binds it into the BD with a VLAN tag-pop
rewrite when the link is not a VXLAN tunnel, and builds the group object. -/
def mk_group (r : Runtime) (key : String) (uri : URI) : ExecResult (Option Group) :=
  match get_fwd_info r uri with
  | .error _ => .ok none []
  | .ok fwd =>
    let w0 := [Obj.bridgeDomain fwd.bdId false, Obj.routeDomain fwd.rdId]
    let bviW := mk_bvi r key fwd.bdId fwd.rdId none
    let bvi := bviW.1
    match r.uplink.spine_proxies fwd.vnid with
    | some sp =>
      let grd := Obj.gbpRouteDomain fwd.rdId (some (sp.mk_v4 key)) (some (sp.mk_v6 key))
      let w1 := w0 ++ bviW.2 ++ [grd]
      let rd_vnid := r.pm.getRDVnidForGroup uri
      match r.pm.getBDVnidForGroup uri, r.pm.getBDMulticastIPForGroup uri with
      | some bv, some mc =>
        let vtW := mk_mcast_tunnel r key bv mc
        let w2 := w1 ++ vtW.2 ++
          [Obj.l2Binding vtW.1.name fwd.bdId none,
           Obj.gbpBridgeDomain fwd.bdId bvi.name (some (sp.mk_mac key)) (some vtW.1.name),
           Obj.gbpVxlan bv (GbpVxlanDom.bd fwd.bdId)]
        let g : Group :=
          { vnid := fwd.vnid, encap := none, bvi := bvi, bdId := fwd.bdId, rdId := fwd.rdId }
        let w3 :=
          match rd_vnid with
          | some rv => w2 ++ [Obj.gbpVxlan rv (GbpVxlanDom.rd fwd.rdId)]
          | none => w2
        .ok (some g) (w3 ++ [Obj.gbpEndpointGroup g.vnid g.encap g.rdId g.bdId])
      | _, _ =>
        let w2 :=
          match rd_vnid with
          | some rv => w1 ++ [Obj.gbpVxlan rv (GbpVxlanDom.rd fwd.rdId)]
          | none => w1
        -- OM::write(key, *gepg) with gepg still null: undefined behaviour
        .nullDeref w2
    | none =>
      let encW := Uplink.mk_interface r.uplink key fwd.vnid
      let encap := encW.1
      let vtr : Option (VtrOp × Nat) :=
        if encap.typ = IntfType.vxlan then none else some (VtrOp.pop1, fwd.vnid)
      let w1 := w0 ++ bviW.2 ++ encW.2 ++
        [Obj.l2Binding encap.name fwd.bdId vtr,
         Obj.gbpBridgeDomain fwd.bdId bvi.name none none,
         Obj.gbpRouteDomain fwd.rdId none none]
      let g : Group :=
        { vnid := fwd.vnid, encap := some encap.name, bvi := bvi,
          bdId := fwd.bdId, rdId := fwd.rdId }
      .ok (some g) (w1 ++ [Obj.gbpEndpointGroup g.vnid g.encap g.rdId g.bdId])

/-- A full-length host route prefix for a single address
(route::prefix_t{addr}); the mask length is per address family in the source
(32 or 128), fixed at 32 here since addresses are opaque strings. -/
def hostRoutePfx (a : IpAddr) : Pfx := { addr := a, len := 32 }

/-- The writes handle_update performs for one subnet of the group: nothing
when the subnet's prefix length or address is absent (the loop's `continue`);
otherwise the l3_binding on the BVI plus the BD ARP entry when a
virtual-router address is present, then always the stitched-internal
gbp_subnet in the group's route domain. -/
def subnet_writes_one (g : Group) (sn : Subnet) : List Obj :=
  match sn.prefixLen, sn.address with
  | some len, some addr =>
    (match sn.routerIp with
     | some ra =>
       [Obj.l3Binding g.bvi.name (hostRoutePfx ra),
        Obj.bdArpEntry g.bdId ra g.bvi.l2_address]
     | none => []) ++
    [Obj.gbpSubnet g.rdId { addr := addr, len := len } GbpSubnetType.stitchedInternal]
  | _, _ => []

/-- EndPointGroupManager::handle_update: opens the mark-n-sweep scope for the
group's key (modelled by the surrounding `handle_update_om`), returns
immediately when the group no longer exists, otherwise builds the group via
mk_group; when a group object was built, asserts the v4/v6 NAT inside
bindings on the BVI and renders each subnet.  The result carries the ordered
list of objects asserted under the group's key during this pass. -/
def handle_update (r : Runtime) (epgURI : URI) : ExecResult Unit :=
  if !(r.pm.groupExists epgURI) then .ok () []
  else
    match mk_group r epgURI epgURI with
    | .nullDeref w => .nullDeref w
    | .ok none w => .ok () w
    | .ok (some g) w =>
      let nat :=
        [Obj.natBinding g.bvi.name Direction.input L3Proto.ipv4 NatZone.inside,
         Obj.natBinding g.bvi.name Direction.input L3Proto.ipv6 NatZone.inside]
      let subs := (r.pm.getSubnetsForGroup epgURI).flatMap (subnet_writes_one g)
      .ok () (w ++ nat ++ subs)

/-- The reconciler's per-owner-key state: the list of objects currently
asserted under each key. -/
abbrev OMState := String → List Obj

/-- Modelled from the spec: closing a mark-and-sweep scope (OM::mark_n_sweep,
from the external VOM library) leaves under the key exactly the objects
asserted during the pass — everything previously held and not re-asserted is
swept. -/
def sweep_close (s : OMState) (key : String) (asserted : List Obj) : OMState :=
  fun k => if k = key then asserted else s k

/-- handle_update together with the RAII mark-n-sweep scope: on normal
completion the key's state becomes exactly the objects asserted during the
pass; when the pass dies on the null dereference the sweep never runs and no
defined state results. -/
def handle_update_om (r : Runtime) (s : OMState) (epgURI : URI) : Option OMState :=
  match handle_update r epgURI with
  | .ok _ w => some (sweep_close s epgURI w)
  | .nullDeref _ => none

/-- True when `sub` occurs as a substring of `s` (std::string::find != npos),
via splitOn: a non-trivial split means an occurrence. -/
def containsSub (s sub : String) : Bool := (s.splitOn sub).length > 1

/-- getIntfTypeFromName (`VppUplink.cpp`): BOND when the name mentions
"Bond", ETHERNET for "Ethernet", TAP for "tap", otherwise AFPACKET. -/
def getIntfTypeFromName (name : String) : IntfType :=
  if containsSub name "Bond" then IntfType.bond
  else if containsSub name "Ethernet" then IntfType.ethernet
  else if containsSub name "tap" then IntfType.tap
  else IntfType.afpacket

/-- The name of the control/data sub-interface of the uplink carrying the
uplink VLAN. -/
def Uplink.subitfName (u : Uplink) : String :=
  u.m_uplink.name ++ "." ++ toString u.m_vlan

/-- Uplink::configure_tap: the TAP interface carrying punted traffic, built
from the given prefix; the L3 binding of the prefix on the uplink
sub-interface (OM::commit, recorded under the same key); the TAP borrowing
the sub-interface's address (ip_unnumbered); and proxy-ARP for the prefix
bound on the TAP.  Reads the uplink state but mutates none of it. -/
def Uplink.configure_tap (u : Uplink) (pfx : Pfx) : List Obj :=
  [Obj.tapIntf "tuntap-0" pfx,
   Obj.l3Binding u.subitfName pfx,
   Obj.ipUnnumbered "tuntap-0" u.subitfName,
   Obj.arpProxyCfg pfx,
   Obj.arpProxyBinding "tuntap-0"]

/-- The uplink interface Uplink::configure constructs and comes to own,
together with the writes creating it: a bond interface with its enslaved
members when the configured name denotes a bond, else a plain interface of
the type inferred from the name. -/
def Uplink.mk_uplink_itf (u : Uplink) : Intf × List Obj :=
  let ty := getIntfTypeFromName u.m_iface
  if ty = IntfType.bond then
    let bitf : Intf := { name := u.m_iface, typ := IntfType.bond }
    let slaveW := u.slave_ifaces.map fun sif =>
      Obj.intf { name := sif, typ := getIntfTypeFromName sif }
    let bgb :=
      if u.slave_ifaces.isEmpty then []
      else [Obj.bondGroupBinding u.m_iface u.slave_ifaces]
    (bitf, [Obj.bondIntf u.m_iface] ++ slaveW ++ bgb)
  else
    let itf : Intf := { name := u.m_iface, typ := ty }
    (itf, [Obj.intf itf])

/-- The hostname part of an FQDN: everything before the first dot. -/
def hostnameOf (fqdn : String) : String := (fqdn.splitOn ".").headD fqdn

/-- Uplink::configure: constructs and owns the uplink interface (bonded or
plain), owns the v4 and v6 global route tables, enables LLDP globally and on
the uplink, creates the control/data sub-interface on the uplink VLAN and
attaches a DHCP client to it.  Then, if VPP already holds a DHCP lease whose
state is past DISCOVER (`lease` models `dc.singular()->lease()`), applies it
immediately: configures the TAP from the lease's host prefix and records the
lease address as the VXLAN tunnel source.  Returns the updated uplink state
and the writes, in order. -/
def Uplink.configure (u : Uplink) (fqdn : String) (lease : Option Lease) :
    Uplink × List Obj :=
  let uplW := u.mk_uplink_itf
  let u1 : Uplink := { u with m_uplink := uplW.1 }
  let w1 := uplW.2 ++
    [Obj.routeDomain 0,
     Obj.routeDomain 0,
     Obj.lldpGlobal fqdn 5 2,
     Obj.lldpBinding uplW.1.name "uplink-interface",
     Obj.subIntf uplW.1.name u.m_vlan,
     Obj.dhcpClient u1.subitfName (hostnameOf fqdn) uplW.1.l2_address]
  match lease with
  | some l =>
    if l.state ≠ DhcpState.discover then
      ({ u1 with m_vxlan := { u1.m_vxlan with src := l.hostPfx.addr } },
       w1 ++ u1.configure_tap l.hostPfx)
    else (u1, w1)
  | none => (u1, w1)

/-- Uplink::handle_dhcp_event_i — the queued task body: configures the TAP
from the lease's host prefix and records the lease address as the VXLAN
tunnel source.  Returns the mutated uplink state and the writes. -/
def Uplink.handle_dhcp_event_i (u : Uplink) (l : Lease) : Uplink × List Obj :=
  let w := u.configure_tap l.hostPfx
  ({ u with m_vxlan := { u.m_vxlan with src := l.hostPfx.addr } }, w)

/-- A task queued on the serialized task queue.  The only task this code
queues is the "dhcp-config-event" carrying the lease. -/
inductive Task where
  | dhcpConfigEvent (l : Lease)
deriving DecidableEq, Repr

/-- The uplink manager together with its serialized task queue (TaskQueue),
modelled as the list of queued tasks in dispatch order. -/
structure UplinkSys where
  uplink : Uplink
  queue : List Task

/-- Uplink::handle_dhcp_event — the asynchronous DHCP callback: dispatches
the lease handling onto the serialized task queue and does nothing else. -/
def Uplink.handle_dhcp_event (s : UplinkSys) (l : Lease) : UplinkSys :=
  { s with queue := s.queue ++ [Task.dhcpConfigEvent l] }

/-- Running one queued task against the uplink state. -/
def runTask (u : Uplink) : Task → Uplink × List Obj
  | Task.dhcpConfigEvent l => u.handle_dhcp_event_i l

/-- The ordered list of OM writes an execution performed (also those made
before a null dereference). -/
def ExecResult.writes {α : Type} : ExecResult α → List Obj
  | .ok _ w => w
  | .nullDeref w => w

/-- The group object a mk_group run returned, none when it returned a null
pointer or died. -/
def groupOf : ExecResult (Option Group) → Option Group
  | .ok g _ => g
  | .nullDeref _ => none

/-- Whether an object is a gbp_subnet entry. -/
def Obj.isGbpSubnet : Obj → Bool
  | Obj.gbpSubnet _ _ _ => true
  | _ => false

/-- Whether an object is an l3_binding. -/
def Obj.isL3Binding : Obj → Bool
  | Obj.l3Binding _ _ => true
  | _ => false

/-- Whether an object is a bridge-domain ARP entry. -/
def Obj.isBdArpEntry : Obj → Bool
  | Obj.bdArpEntry _ _ _ => true
  | _ => false

/-- True when the list carries no per-subnet state at all: no gbp_subnet
route, no l3_binding and no ARP entry. -/
def noSubnetState (l : List Obj) : Bool :=
  l.all fun o => !(o.isGbpSubnet || o.isL3Binding || o.isBdArpEntry)

/-! ## Concrete environments used to exercise the embedding -/

/-- A policy manager in which no group exists and nothing resolves. -/
def pmEmpty : PolicyManager :=
  { groupExists := fun _ => false
    getVnidForGroup := fun _ => none
    getRDForGroup := fun _ => none
    getBDForGroup := fun _ => none
    getBDVnidForGroup := fun _ => none
    getRDVnidForGroup := fun _ => none
    getBDMulticastIPForGroup := fun _ => none
    getSubnetsForGroup := fun _ => [] }

/-- A concrete ID allocation: routing domains get id 3, bridge domains 7. -/
def idGenEx : ClassId → URI → Nat := fun c _ =>
  match c with
  | ClassId.routingDomain => 3
  | ClassId.bridgeDomain => 7

/-- Runtime for a deleted group: the group does not exist. -/
def rtDeleted : Runtime :=
  { pm := pmEmpty, id_gen := idGenEx, uplink := {}, vr := none }

/-- A prior reconciler state holding one stale object under every key. -/
def omStale : OMState := fun _ => [Obj.routeDomain 9]

/-- A policy manager whose groups exist but resolve no vnid. -/
def pmNoVnid : PolicyManager :=
  { pmEmpty with groupExists := fun _ => true }

/-- Runtime for an existing group whose vnid is unresolved. -/
def rtNoVnid : Runtime :=
  { pm := pmNoVnid, id_gen := idGenEx, uplink := {}, vr := none }

/-- A complete subnet: address, mask length and virtual-router address. -/
def snFull : Subnet :=
  { address := some "10.1.0.0", prefixLen := some 24, routerIp := some "10.1.0.1" }

/-- A subnet with an address and a router IP but no mask length. -/
def snHalf : Subnet :=
  { address := some "10.2.0.0", prefixLen := none, routerIp := some "10.2.0.1" }

/-- A policy manager that fully resolves a stitched-mode group with vnid 10
and one subnet carrying a virtual-router address. -/
def pmStitched : PolicyManager :=
  { groupExists := fun _ => true
    getVnidForGroup := fun _ => some 10
    getRDForGroup := fun _ => some "rd-uri"
    getBDForGroup := fun _ => some "bd-uri"
    getBDVnidForGroup := fun _ => none
    getRDVnidForGroup := fun _ => none
    getBDMulticastIPForGroup := fun _ => none
    getSubnetsForGroup := fun _ => [snFull] }

/-- A VLAN-mode uplink whose physical interface has been configured. -/
def uplVlan : Uplink :=
  { m_type := UplinkType.vlan
    m_iface := "Ethernet0"
    m_vlan := 4
    m_uplink := { name := "Ethernet0", typ := IntfType.ethernet } }

/-- Runtime for a resolvable stitched-mode group. -/
def rtStitched : Runtime :=
  { pm := pmStitched, id_gen := idGenEx, uplink := uplVlan, vr := none }

/-- The forwarding info rtStitched resolves for any group URI. -/
def fwdStitched : ForwardInfo :=
  { vnid := 10, rdURI := some "rd-uri", rdId := 3, bdURI := some "bd-uri", bdId := 7 }

/-- The BVI interface built for bridge domain 7 / route domain 3 with no
virtual router configured. -/
def bviEx : Intf :=
  { name := "bvi-7", typ := IntfType.bvi, rdId := some 3, mac := none }

/-- The group object mk_group builds for rtStitched. -/
def grpStitched : Group :=
  { vnid := 10, encap := some "Ethernet0.10", bvi := bviEx, bdId := 7, rdId := 3 }

/-- The writes mk_group performs for rtStitched, in order. -/
def wStitched : List Obj :=
  [Obj.bridgeDomain 7 false,
   Obj.routeDomain 3,
   Obj.intf bviEx,
   Obj.l2Binding "bvi-7" 7 none,
   Obj.bdEntry 7 "00:00:00:00:00:00" "bvi-7",
   Obj.subIntf "Ethernet0" 10,
   Obj.l2Binding "Ethernet0.10" 7 (some (VtrOp.pop1, 10)),
   Obj.gbpBridgeDomain 7 "bvi-7" none none,
   Obj.gbpRouteDomain 3 none none,
   Obj.gbpEndpointGroup 10 (some "Ethernet0.10") 3 7]

/-- Like pmStitched but the group's only subnet lacks its mask length. -/
def pmHalfSubnet : PolicyManager :=
  { pmStitched with getSubnetsForGroup := fun _ => [snHalf] }

/-- Runtime whose group resolves but whose only subnet lacks a mask
length. -/
def rtHalfSubnet : Runtime :=
  { pm := pmHalfSubnet, id_gen := idGenEx, uplink := uplVlan, vr := none }

/-- The full pass output for rtHalfSubnet: group scaffolding and NAT
bindings, but nothing for the incomplete subnet. -/
def wHalfSubnet : List Obj :=
  wStitched ++
  [Obj.natBinding "bvi-7" Direction.input L3Proto.ipv4 NatZone.inside,
   Obj.natBinding "bvi-7" Direction.input L3Proto.ipv6 NatZone.inside]

/-- A spine proxy for the transport-mode runtime. -/
def spEx : SpineProxy := { v4 := "sp-v4", v6 := "sp-v6", macItf := "sp-mac" }

/-- A VXLAN transport-mode uplink offering a spine proxy for vnid 100. -/
def uplTransport : Uplink :=
  { m_type := UplinkType.vxlan
    m_vxlan := { src := "1.1.1.1", dst := "2.2.2.2" }
    m_iface := "Ethernet0"
    m_uplink := { name := "Ethernet0", typ := IntfType.ethernet }
    spine_proxies := fun v => if v = 100 then some spEx else none }

/-- Policy manager for a transport-mode group (vnid 100) whose BD vnid is
absent from the policy model while its BD multicast address is known. -/
def pmTransportGap : PolicyManager :=
  { groupExists := fun _ => true
    getVnidForGroup := fun _ => some 100
    getRDForGroup := fun _ => some "rd-uri"
    getBDForGroup := fun _ => some "bd-uri"
    getBDVnidForGroup := fun _ => none
    getRDVnidForGroup := fun _ => none
    getBDMulticastIPForGroup := fun _ => some "239.1.1.1"
    getSubnetsForGroup := fun _ => [snFull] }

/-- Runtime for the transport-mode group with the missing BD vnid. -/
def rtTransportGap : Runtime :=
  { pm := pmTransportGap, id_gen := idGenEx, uplink := uplTransport, vr := none }

/-- The writes mk_group performs for rtTransportGap before it dereferences
the null group pointer. -/
def wGap : List Obj :=
  [Obj.bridgeDomain 7 false,
   Obj.routeDomain 3,
   Obj.intf bviEx,
   Obj.l2Binding "bvi-7" 7 none,
   Obj.bdEntry 7 "00:00:00:00:00:00" "bvi-7",
   Obj.gbpRouteDomain 3 (some "sp-v4") (some "sp-v6")]

/-- A VXLAN-mode uplink with recorded source and configured destination. -/
def uplVxlanCfg : Uplink :=
  { m_type := UplinkType.vxlan
    m_vxlan := { src := "1.1.1.1", dst := "2.2.2.2" }
    m_iface := "Ethernet1"
    m_uplink := { name := "Ethernet1", typ := IntfType.ethernet } }

/-- A DHCP lease in BOUND state. -/
def leaseBound : Lease :=
  { state := DhcpState.bound, hostPfx := { addr := "10.9.0.5", len := 24 } }

/-! ## Theorems -/

/-- C1: whenever the group's forwarding information is unresolved — the group
was deleted, or its vnid or bridge-domain info is absent — handle_update's
pass asserts nothing under the group's key, and closing the mark-and-sweep
scope leaves the key's reconciler state empty, deleting every previously
asserted object: the empty pass is the deletion path. -/
theorem handle_update_unresolved_is_empty_pass (r : Runtime) (s : OMState) (uri : URI)
    (h : r.pm.groupExists uri = false ∨ r.pm.getVnidForGroup uri = none ∨
         r.pm.getBDForGroup uri = none) :
    handle_update r uri = ExecResult.ok () [] ∧
    handle_update_om r s uri = some (sweep_close s uri []) ∧
    sweep_close s uri [] uri = [] := by
  have hmain : handle_update r uri = ExecResult.ok () [] := by
    rcases h with h | h | h
    · simp [handle_update, h]
    · cases hg : r.pm.groupExists uri
      · simp [handle_update, hg]
      · simp [handle_update, hg, mk_group, get_fwd_info, h]
    · cases hg : r.pm.groupExists uri
      · simp [handle_update, hg]
      · cases hv : r.pm.getVnidForGroup uri
        · simp [handle_update, hg, mk_group, get_fwd_info, hv]
        · simp [handle_update, hg, mk_group, get_fwd_info, hv, h]
  refine ⟨hmain, ?_, ?_⟩
  · simp [handle_update_om, hmain]
  · simp [sweep_close]

/-- Witness for C1 at a concrete deleted group over a non-empty prior
state. -/
theorem handle_update_unresolved_is_empty_pass_w :
    handle_update rtDeleted "epg-1" = ExecResult.ok () [] ∧
    handle_update_om rtDeleted omStale "epg-1" = some (sweep_close omStale "epg-1" []) ∧
    sweep_close omStale "epg-1" [] "epg-1" = [] :=
  handle_update_unresolved_is_empty_pass rtDeleted omStale "epg-1" (Or.inl rfl)

/-- C2: a forwarding-info resolution failure is caught inside mk_group, which
returns a null group pointer having written nothing; handle_update completes
normally with an empty pass, and the scope close leaves no partial objects
under the key. -/
theorem nofwd_never_raises (r : Runtime) (s : OMState) (key uri : String)
    (h : get_fwd_info r uri = Except.error ()) :
    mk_group r key uri = ExecResult.ok none [] ∧
    handle_update r uri = ExecResult.ok () [] ∧
    handle_update_om r s uri = some (sweep_close s uri []) ∧
    sweep_close s uri [] uri = [] := by
  have hmk : ∀ k, mk_group r k uri = ExecResult.ok none [] := by
    intro k
    simp [mk_group, h]
  have hmain : handle_update r uri = ExecResult.ok () [] := by
    cases hg : r.pm.groupExists uri
    · simp [handle_update, hg]
    · simp [handle_update, hg, hmk]
  refine ⟨hmk key, hmain, ?_, ?_⟩
  · simp [handle_update_om, hmain]
  · simp [sweep_close]

/-- Witness for C2: a group that exists but has no vnid resolves nothing, and
the render completes with an empty pass. -/
theorem nofwd_never_raises_w :
    mk_group rtNoVnid "epg-2" "epg-2" = ExecResult.ok none [] ∧
    handle_update rtNoVnid "epg-2" = ExecResult.ok () [] ∧
    handle_update_om rtNoVnid omStale "epg-2" = some (sweep_close omStale "epg-2" []) ∧
    sweep_close omStale "epg-2" [] "epg-2" = [] :=
  nofwd_never_raises rtNoVnid omStale "epg-2" "epg-2" rfl

/-- C3: get_fwd_info fails exactly when the group's vnid or its bridge domain
cannot be resolved — an absent routing domain alone is no failure — and on
success the ForwardInfo carries the vnid, the BD URI with its allocated id,
and the RD URI/id when a routing domain is present. -/
theorem get_fwd_info_characterisation (r : Runtime) (uri : URI) :
    (get_fwd_info r uri = Except.error () ↔
      r.pm.getVnidForGroup uri = none ∨ r.pm.getBDForGroup uri = none) ∧
    (∀ v b, r.pm.getVnidForGroup uri = some v → r.pm.getBDForGroup uri = some b →
      get_fwd_info r uri = Except.ok
        { vnid := v
          rdURI := r.pm.getRDForGroup uri
          rdId := (r.pm.getRDForGroup uri).elim 0 (r.id_gen ClassId.routingDomain)
          bdURI := some b
          bdId := r.id_gen ClassId.bridgeDomain b }) := by
  constructor
  · cases hv : r.pm.getVnidForGroup uri
    · simp [get_fwd_info, hv]
    · cases hb : r.pm.getBDForGroup uri
      · simp [get_fwd_info, hv, hb]
      · cases hr : r.pm.getRDForGroup uri <;>
          simp [get_fwd_info, hv, hb, hr]
  · intro v b hv hb
    cases hr : r.pm.getRDForGroup uri <;>
      simp [get_fwd_info, hv, hb, hr]

/-- Witness for C3: a fully resolved group yields the vnid and both domain
URIs/ids. -/
theorem get_fwd_info_characterisation_w :
    get_fwd_info rtStitched "epg-3" = Except.ok
      { vnid := 10, rdURI := some "rd-uri", rdId := 3,
        bdURI := some "bd-uri", bdId := 7 } :=
  (get_fwd_info_characterisation rtStitched "epg-3").2 10 "bd-uri" rfl rfl

/-- C4: whenever the render pass builds a group object, handle_update asserts
the IPv4 and IPv6 NAT inside bindings on the group's BVI, with no condition
on floating IPs or anything else: the asserted list is exactly the group
writes, the two NAT bindings, and the subnet writes. -/
theorem nat_inside_bindings_unconditional (r : Runtime) (uri : URI)
    (g : Group) (w : List Obj)
    (hex : r.pm.groupExists uri = true)
    (hmk : mk_group r uri uri = ExecResult.ok (some g) w) :
    handle_update r uri = ExecResult.ok ()
      (w ++
        [Obj.natBinding g.bvi.name Direction.input L3Proto.ipv4 NatZone.inside,
         Obj.natBinding g.bvi.name Direction.input L3Proto.ipv6 NatZone.inside] ++
        (r.pm.getSubnetsForGroup uri).flatMap (subnet_writes_one g)) ∧
    Obj.natBinding g.bvi.name Direction.input L3Proto.ipv4 NatZone.inside
      ∈ (handle_update r uri).writes ∧
    Obj.natBinding g.bvi.name Direction.input L3Proto.ipv6 NatZone.inside
      ∈ (handle_update r uri).writes := by
  have heq : handle_update r uri = ExecResult.ok ()
      (w ++
        [Obj.natBinding g.bvi.name Direction.input L3Proto.ipv4 NatZone.inside,
         Obj.natBinding g.bvi.name Direction.input L3Proto.ipv6 NatZone.inside] ++
        (r.pm.getSubnetsForGroup uri).flatMap (subnet_writes_one g)) := by
    simp [handle_update, hex, hmk]
  refine ⟨heq, ?_, ?_⟩ <;> simp [heq, ExecResult.writes]

/-- Witness for C4 at the concrete stitched runtime, whose group has no
floating IPs at all. -/
theorem nat_inside_bindings_unconditional_w :
    handle_update rtStitched "epg-4" = ExecResult.ok ()
      (wStitched ++
        [Obj.natBinding grpStitched.bvi.name Direction.input L3Proto.ipv4 NatZone.inside,
         Obj.natBinding grpStitched.bvi.name Direction.input L3Proto.ipv6 NatZone.inside] ++
        (rtStitched.pm.getSubnetsForGroup "epg-4").flatMap (subnet_writes_one grpStitched)) ∧
    Obj.natBinding grpStitched.bvi.name Direction.input L3Proto.ipv4 NatZone.inside
      ∈ (handle_update rtStitched "epg-4").writes ∧
    Obj.natBinding grpStitched.bvi.name Direction.input L3Proto.ipv6 NatZone.inside
      ∈ (handle_update rtStitched "epg-4").writes :=
  nat_inside_bindings_unconditional rtStitched "epg-4" grpStitched wStitched rfl rfl

/-- C5 counterexample: rtHalfSubnet's group resolves and its one subnet
carries an address and a virtual-router address but no mask length.  The
claim says a subnet is skipped only when it lacks BOTH address and mask
length, so this subnet should get its stitched-internal route — but the pass
asserts no subnet state whatsoever. -/
theorem subnet_skip_counterexample :
    handle_update rtHalfSubnet "epg-5" = ExecResult.ok () wHalfSubnet ∧
    snHalf.address = some "10.2.0.0" ∧
    noSubnetState wHalfSubnet = true := by
  refine ⟨?_, rfl, by decide⟩
  rfl

/-- C5 amended: a subnet is skipped as incomplete when it lacks its address
OR its mask length (either one missing suffices); every subnet carrying both
gets its stitched-internal routing entry in the group's route domain, plus
the BVI address binding and bridge-domain ARP entry when it carries a
virtual-router address. -/
theorem subnet_render_amended (r : Runtime) (uri : URI) (g : Group) (w : List Obj)
    (hex : r.pm.groupExists uri = true)
    (hmk : mk_group r uri uri = ExecResult.ok (some g) w) :
    handle_update r uri = ExecResult.ok ()
      (w ++
        [Obj.natBinding g.bvi.name Direction.input L3Proto.ipv4 NatZone.inside,
         Obj.natBinding g.bvi.name Direction.input L3Proto.ipv6 NatZone.inside] ++
        (r.pm.getSubnetsForGroup uri).flatMap (subnet_writes_one g)) ∧
    (∀ sn : Subnet, sn.address = none ∨ sn.prefixLen = none →
      subnet_writes_one g sn = []) ∧
    (∀ sn : Subnet, ∀ a l, sn.address = some a → sn.prefixLen = some l →
      subnet_writes_one g sn =
        (match sn.routerIp with
         | some ra =>
           [Obj.l3Binding g.bvi.name (hostRoutePfx ra),
            Obj.bdArpEntry g.bdId ra g.bvi.l2_address]
         | none => []) ++
        [Obj.gbpSubnet g.rdId { addr := a, len := l } GbpSubnetType.stitchedInternal]) := by
  refine ⟨by simp [handle_update, hex, hmk], ?_, ?_⟩
  · intro sn h
    rcases h with h | h
    · cases hp : sn.prefixLen <;> simp [subnet_writes_one, h, hp]
    · simp [subnet_writes_one, h]
  · intro sn a l ha hl
    cases hr : sn.routerIp <;> simp [subnet_writes_one, ha, hl, hr]

/-- Witness for C5's amended claim: the complete subnet of the stitched
runtime yields its BVI binding, ARP entry and stitched-internal route. -/
theorem subnet_render_amended_w :
    subnet_writes_one grpStitched snFull =
      [Obj.l3Binding "bvi-7" (hostRoutePfx "10.1.0.1"),
       Obj.bdArpEntry 7 "10.1.0.1" "00:00:00:00:00:00",
       Obj.gbpSubnet 3 { addr := "10.1.0.0", len := 24 } GbpSubnetType.stitchedInternal] :=
  (subnet_render_amended rtStitched "epg-4" grpStitched wStitched rfl rfl).2.2
    snFull "10.1.0.0" 24 rfl rfl

/-- C6: Uplink::mk_interface is switched solely on the encapsulation mode —
in VXLAN mode it yields the VXLAN tunnel from the recorded local source to
the configured remote keyed by the vnid, and in VLAN mode the sub-interface
of the uplink tagged with the vnid. -/
theorem mk_interface_by_mode (u : Uplink) (uuid : String) (vnid : Nat) :
    (u.m_type = UplinkType.vxlan →
      Uplink.mk_interface u uuid vnid =
        ({ name := vxlanItfName u.m_vxlan.src u.m_vxlan.dst vnid, typ := IntfType.vxlan },
         [Obj.vxlanTunnel u.m_vxlan.src u.m_vxlan.dst vnid false none])) ∧
    (u.m_type = UplinkType.vlan →
      Uplink.mk_interface u uuid vnid =
        ({ name := u.m_uplink.name ++ "." ++ toString vnid, typ := IntfType.sub },
         [Obj.subIntf u.m_uplink.name vnid])) := by
  constructor <;> intro h <;> simp [Uplink.mk_interface, h]

/-- Witness for C6 in both modes at concrete uplinks. -/
theorem mk_interface_by_mode_w :
    Uplink.mk_interface uplVxlanCfg "epg-6" 66 =
      ({ name := vxlanItfName "1.1.1.1" "2.2.2.2" 66, typ := IntfType.vxlan },
       [Obj.vxlanTunnel "1.1.1.1" "2.2.2.2" 66 false none]) ∧
    Uplink.mk_interface uplVlan "epg-6" 66 =
      ({ name := "Ethernet0.66", typ := IntfType.sub },
       [Obj.subIntf "Ethernet0" 66]) :=
  ⟨(mk_interface_by_mode uplVxlanCfg "epg-6" 66).1 rfl,
   (mk_interface_by_mode uplVlan "epg-6" 66).2 rfl⟩

/-- C7: in stitched mode (no spine proxy for the group's vnid) the group is
built over the uplink's per-tenant encapsulation link, and that link's
l2_binding into the group's bridge domain carries the pop-1 VLAN tag rewrite
with the group's vnid exactly when the link's type is not VXLAN. -/
theorem stitched_encap_tag_pop (r : Runtime) (key uri : String) (fwd : ForwardInfo)
    (hfwd : get_fwd_info r uri = Except.ok fwd)
    (hsp : r.uplink.spine_proxies fwd.vnid = none) :
    (groupOf (mk_group r key uri)).map Group.encap =
      some (some (Uplink.mk_interface r.uplink key fwd.vnid).1.name) ∧
    Obj.l2Binding (Uplink.mk_interface r.uplink key fwd.vnid).1.name fwd.bdId
        (if (Uplink.mk_interface r.uplink key fwd.vnid).1.typ = IntfType.vxlan
         then none else some (VtrOp.pop1, fwd.vnid))
      ∈ (mk_group r key uri).writes := by
  constructor <;> simp [mk_group, hfwd, hsp, groupOf, ExecResult.writes]

/-- Witness for C7 at the stitched runtime: the VLAN sub-interface link gets
the pop-1 rewrite with vnid 10. -/
theorem stitched_encap_tag_pop_w :
    (groupOf (mk_group rtStitched "epg-7" "epg-7")).map Group.encap =
      some (some "Ethernet0.10") ∧
    Obj.l2Binding "Ethernet0.10" 7 (some (VtrOp.pop1, 10))
      ∈ (mk_group rtStitched "epg-7" "epg-7").writes :=
  stitched_encap_tag_pop rtStitched "epg-7" "epg-7" fwdStitched rfl rfl

/-- C8: when a DHCP lease past Discover already exists at configure time, the
uplink applies it during configure itself: the same base writes are followed
immediately by the TAP configuration from the lease's host prefix, and the
lease address is recorded as the VXLAN tunnel source. -/
theorem configure_applies_existing_lease (u : Uplink) (fqdn : String) (l : Lease)
    (h : ¬ l.state = DhcpState.discover) :
    (Uplink.configure u fqdn (some l)).1.m_vxlan.src = l.hostPfx.addr ∧
    (Uplink.configure u fqdn (some l)).2 =
      (Uplink.configure u fqdn none).2 ++
        Uplink.configure_tap { u with m_uplink := (Uplink.mk_uplink_itf u).1 } l.hostPfx ∧
    Obj.tapIntf "tuntap-0" l.hostPfx ∈ (Uplink.configure u fqdn (some l)).2 := by
  refine ⟨?_, ?_, ?_⟩ <;> simp [Uplink.configure, h, Uplink.configure_tap]

/-- Witness for C8: a bound lease at configure time on the VLAN uplink. -/
theorem configure_applies_existing_lease_w :
    (Uplink.configure uplVlan "host.example.com" (some leaseBound)).1.m_vxlan.src
      = "10.9.0.5" ∧
    (Uplink.configure uplVlan "host.example.com" (some leaseBound)).2 =
      (Uplink.configure uplVlan "host.example.com" none).2 ++
        Uplink.configure_tap
          { uplVlan with m_uplink := (Uplink.mk_uplink_itf uplVlan).1 }
          leaseBound.hostPfx ∧
    Obj.tapIntf "tuntap-0" leaseBound.hostPfx
      ∈ (Uplink.configure uplVlan "host.example.com" (some leaseBound)).2 :=
  configure_applies_existing_lease uplVlan "host.example.com" leaseBound (by decide)

/-- C9: the asynchronous DHCP callback only enqueues the lease handling onto
the serialized task queue — the uplink state is untouched on the calling
thread — and the queued task body handle_dhcp_event_i is what configures the
TAP and records the tunnel source. -/
theorem dhcp_event_redispatches_only (s : UplinkSys) (l : Lease) (u : Uplink) :
    Uplink.handle_dhcp_event s l =
      { uplink := s.uplink, queue := s.queue ++ [Task.dhcpConfigEvent l] } ∧
    (Uplink.handle_dhcp_event s l).uplink = s.uplink ∧
    runTask u (Task.dhcpConfigEvent l) = Uplink.handle_dhcp_event_i u l ∧
    Uplink.handle_dhcp_event_i u l =
      ({ u with m_vxlan := { u.m_vxlan with src := l.hostPfx.addr } },
       Uplink.configure_tap u l.hostPfx) :=
  ⟨rfl, rfl, rfl, rfl⟩

/-- C10: for the transport-mode group whose BD vnid the policy model lacks,
mk_group leaves the group pointer null and then dereferences it at
`OM::write(key, *gepg)` — the pass dies in undefined behaviour instead of
cleanly asserting nothing, so no swept state results at all. -/
theorem transport_gap_hits_null_deref :
    mk_group rtTransportGap "epg-10" "epg-10" = ExecResult.nullDeref wGap ∧
    handle_update rtTransportGap "epg-10" = ExecResult.nullDeref wGap ∧
    handle_update_om rtTransportGap omStale "epg-10" = none := by
  refine ⟨rfl, ?_, ?_⟩ <;> rfl

end Vpp
